import Mathlib

/-!
Shallow embedding of the retrieval / formatting / two-stage generation pipeline
of the AI-Agent report generator (files `rag_retrieval.py`, `vector_db.py`,
`agent.py`).

Modelling conventions:
* Python dicts of metadata become association lists `List (String × String)`;
  `dict.get k` is `List.lookup k`, returning `Option String` (`none` models
  Python `None`).  Metadata values are strings, exactly as `vector_db.py`
  stores them (`load_data_to_vectordb` applies `str(...)` to every number).
* The raw ChromaDB result container is a record of three optional fields;
  a missing field models a dict without that key, `none` at the outer level
  models a falsy container (Python `None` or `{}`).
* Python floats become `ℚ` (the distances and relevance scores of the claims
  are exactly representable, so rational arithmetic is faithful here).
* Python exceptions become `Except PyError`; an uncaught exception is an
  `Except.error` value that propagates.
* A Python f-string becomes explicit `++` concatenation; `f"{x:.2f}"` becomes
  `format2f` (round-half-to-even at two decimals, as Python formats these
  values).
-/

/-- One similarity-search call as issued by `retrieve_relevant_context` /
`query_vectordb`: the query text, the result-count cap `n_results`, and the
`where` filter dict (at most one key/value pair, as built in
`rag_retrieval.py` line 19: `{'type': filter_type}`). -/
structure SearchCall where
  query : String
  nResults : Nat
  whereFilter : Option (String × String)
deriving DecidableEq, Repr

/-- Metadata mapping of one stored document (Python dict of string keys to
string values, cf. `load_data_to_vectordb`). -/
abbrev Metadata := List (String × String)

/-- The raw result container returned by `collection.query` (ChromaDB shape):
each field holds a list of per-query lists.  `none` in a field models a dict
that lacks that key. -/
structure RawContainer where
  documents : Option (List (List String))
  metadatas : Option (List (List Metadata))
  distances : Option (List (List ℚ))
deriving Repr

/-- One raw similarity hit: document text, metadata, distance. -/
structure RawHit where
  doc : String
  metadata : Metadata
  distance : ℚ
deriving DecidableEq, Repr

/-- Builds the container exactly as the index returns a list of hits for a
single query: `documents = [[d1,...]]`, `metadatas = [[m1,...]]`,
`distances = [[x1,...]]`. -/
def mkContainer (hits : List RawHit) : RawContainer :=
  { documents := some [hits.map RawHit.doc]
  , metadatas := some [hits.map RawHit.metadata]
  , distances := some [hits.map RawHit.distance] }

/-- One normalized context item, as built in `format_retrieval_results`
lines 50–56 of `rag_retrieval.py`. -/
structure ContextItem where
  rank : Nat
  relevance_score : ℚ
  type : String
  content : String
  metadata : Metadata
deriving DecidableEq, Repr

/-- Python exceptions that `format_retrieval_results` can raise: a missing
dict key (`KeyError`) or an out-of-range index (`IndexError`). -/
inductive PyError where
  | keyError : String → PyError
  | indexError : PyError
deriving DecidableEq, Repr

/-- The union type returned by `format_retrieval_results`: either a plain
string (the sentinel) or the list of context items.  `create_context_string`
branches on this with `isinstance(formatted_context, str)`. -/
inductive Formatted where
  | str : String → Formatted
  | items : List ContextItem → Formatted
deriving DecidableEq, Repr

/-- The sentinel returned when retrieval yields nothing
(`rag_retrieval.py` line 40). -/
def sentinel : String := "No relevant information found."

/-- The body of the `for i, (doc, metadata, distance) in enumerate(zip(...))`
loop of `format_retrieval_results`: one `ContextItem` per zipped triple,
rank `i+1`, score `1 - distance`, type from `metadata.get("type", "unknown")`. -/
def normalizeTriples (l : List (String × Metadata × ℚ)) : List ContextItem :=
  l.enum.map (fun p =>
    { rank := p.1 + 1
    , relevance_score := 1 - p.2.2.2
    , type := (List.lookup "type" p.2.2.1).getD "unknown"
    , content := p.2.1
    , metadata := p.2.2.1 })

/-- `format_retrieval_results(results)` (`rag_retrieval.py` lines 37–59).
Guard: `if not results or not results.get("documents")` returns the sentinel
(falsy container, missing `documents` key, or empty `documents` list).
Then `results["documents"][0]`, `results["metadatas"][0]`,
`results["distances"][0]` are read in source order: a missing key raises
`KeyError`, an empty outer list raises `IndexError`.  The three inner lists
are zipped (Python `zip` truncates to the shortest). -/
def format_retrieval_results (results : Option RawContainer) : Except PyError Formatted :=
  match results with
  | none => Except.ok (Formatted.str sentinel)
  | some r =>
    match r.documents with
    | none => Except.ok (Formatted.str sentinel)
    | some [] => Except.ok (Formatted.str sentinel)
    | some (docs :: _) =>
      match r.metadatas with
      | none => Except.error (PyError.keyError "metadatas")
      | some [] => Except.error PyError.indexError
      | some (metas :: _) =>
        match r.distances with
        | none => Except.error (PyError.keyError "distances")
        | some [] => Except.error PyError.indexError
        | some (dists :: _) =>
          Except.ok (Formatted.items (normalizeTriples (docs.zip (metas.zip dists))))

/-- The composition `format_retrieval_results (mkContainer hits)` computes on
the well-formed single-query container built from a hit list. -/
def normalizeHits (hits : List RawHit) : List ContextItem :=
  normalizeTriples ((hits.map RawHit.doc).zip
    ((hits.map RawHit.metadata).zip (hits.map RawHit.distance)))

/-- Renders an `Option String` the way a Python f-string renders the result
of `dict.get(key)`: `None` for a missing key, the value itself otherwise. -/
def pyNone (o : Option String) : String :=
  match o with
  | none => "None"
  | some s => s

/-- Round half to even at the integer level (the tie-breaking rule Python
uses when formatting these values with `:.2f`). -/
def roundHalfEven (q : ℚ) : ℤ :=
  let f : ℤ := Rat.floor q
  let r : ℚ := q - (f : ℚ)
  if r < 1/2 then f
  else if r > 1/2 then f + 1
  else if f % 2 = 0 then f else f + 1

/-- Two-digit zero padding of the fractional part. -/
def pad2 (k : Nat) : String :=
  if k < 10 then "0" ++ toString k else toString k

/-- Python `f"{x:.2f}"` on the score: fixed-point with two decimals. -/
def format2f (q : ℚ) : String :=
  let n : ℤ := roundHalfEven (q * 100)
  let sign : String := if n < 0 then "-" else ""
  let m : Nat := n.natAbs
  sign ++ toString (m / 100) ++ "." ++ pad2 (m % 100)

/-- The ranked/typed/scored line of one item
(`rag_retrieval.py` line 89): `\n{rank}. [{TYPE}] (Relevance: {score:.2f})`. -/
def itemHeader (it : ContextItem) : String :=
  "\n" ++ toString it.rank ++ ". [" ++ it.type.toUpper ++ "] (Relevance: "
    ++ format2f it.relevance_score ++ ")"

/-- The content line of one item (`rag_retrieval.py` line 91). -/
def itemContent (it : ContextItem) : String :=
  "   " ++ it.content

/-- The sales metadata line (`rag_retrieval.py` line 97). -/
def salesLine (md : Metadata) : String :=
  "   Product: " ++ pyNone (List.lookup "product" md)
    ++ ", Revenue: $" ++ pyNone (List.lookup "revenue" md)
    ++ ", Region: " ++ pyNone (List.lookup "region" md)
    ++ ", Quarter: " ++ pyNone (List.lookup "quarter" md)

/-- The marketing metadata line (`rag_retrieval.py` line 100). -/
def marketingLine (md : Metadata) : String :=
  "   Campaign: " ++ pyNone (List.lookup "campaign_name" md)
    ++ ", Channel: " ++ pyNone (List.lookup "channel" md)
    ++ ", Budget: $" ++ pyNone (List.lookup "budget" md)
    ++ ", Conversions: " ++ pyNone (List.lookup "conversions" md)

/-- The parts appended to `context_parts` for one item inside the loop of
`create_context_string`: header line, content line, and — only for types
`"sales"` / `"marketing"` — the type-specific metadata line. -/
def itemParts (it : ContextItem) : List String :=
  if it.type = "sales" then [itemHeader it, itemContent it, salesLine it.metadata]
  else if it.type = "marketing" then [itemHeader it, itemContent it, marketingLine it.metadata]
  else [itemHeader it, itemContent it]

/-- Python `"\n".join(parts)`. -/
def joinNL : List String → String
  | [] => ""
  | [s] => s
  | s :: rest => s ++ "\n" ++ joinNL rest

/-- `create_context_string(formatted_context)` (`rag_retrieval.py` lines
79–103): a plain string is passed through unchanged; a list of items becomes
the header `"Retrieved relevant information:\n"` followed by the per-item
parts, all joined with newlines. -/
def create_context_string : Formatted → String
  | Formatted.str s => s
  | Formatted.items items =>
      joinNL ("Retrieved relevant information:\n" :: (items.map itemParts).flatten)

/-- `retrieve_relevant_context(query, n_results, filter_type)`
(`rag_retrieval.py` lines 10–28) combined with `query_vectordb`
(`vector_db.py` lines 84–98): builds `filter_dict = {'type': filter_type}`
when `filter_type` is truthy (a non-empty string), issues exactly one
`collection.query` call, and returns the raw results.  The search backend is
a parameter; the list component records the calls issued. -/
def retrieve_relevant_context (search : SearchCall → Option RawContainer)
    (query : String) (nResults : Nat) (filterType : Option String) :
    Option RawContainer × List SearchCall :=
  let fd : Option (String × String) :=
    match filterType with
    | some s => if s = "" then none else some ("type", s)
    | none => none
  let call : SearchCall := { query := query, nResults := nResults, whereFilter := fd }
  (search call, [call])

/-- `retrieve_sales_data(query, n_results)` (`rag_retrieval.py` lines
119–125): retrieve with `filter_type="sales"`, format, compose. -/
def retrieve_sales_data (search : SearchCall → Option RawContainer)
    (query : String) (nResults : Nat) : Except PyError String × List SearchCall :=
  let rc := retrieve_relevant_context search query nResults (some "sales")
  ((format_retrieval_results rc.1).map create_context_string, rc.2)

/-- `retrieve_marketing_data(query, n_results)` (`rag_retrieval.py` lines
127–131). -/
def retrieve_marketing_data (search : SearchCall → Option RawContainer)
    (query : String) (nResults : Nat) : Except PyError String × List SearchCall :=
  let rc := retrieve_relevant_context search query nResults (some "marketing")
  ((format_retrieval_results rc.1).map create_context_string, rc.2)

/-- `retrieve_combined_data(query, n_results)` (`rag_retrieval.py` lines
133–137): no filter. -/
def retrieve_combined_data (search : SearchCall → Option RawContainer)
    (query : String) (nResults : Nat) : Except PyError String × List SearchCall :=
  let rc := retrieve_relevant_context search query nResults none
  ((format_retrieval_results rc.1).map create_context_string, rc.2)

/-- Step 1 of `generate_report_with_autogen_multiagent` (`agent.py` lines
102–107): the `if/elif/else` dispatch on `report_type`.  Any value other than
exactly `"sales"` or `"marketing"` takes the `else` branch (combined,
unfiltered retrieval); there is no validation of `report_type`. -/
def retrieveContextFor (search : SearchCall → Option RawContainer)
    (reportType query : String) (nResults : Nat) :
    Except PyError String × List SearchCall :=
  if reportType = "sales" then retrieve_sales_data search query nResults
  else if reportType = "marketing" then retrieve_marketing_data search query nResults
  else retrieve_combined_data search query nResults

/-- The stage role of one generation call: `data_analyst` or `report_writer`
(`agent.py`, `create_data_analyst_agent` / `create_report_writer_agent`). -/
inductive Role where
  | analyst
  | writer
deriving DecidableEq, Repr

/-- The failures a generation call can raise (spec §7: `GenerationTimeout` /
`GenerationServiceError`); `agent.py` installs no `try/except`, so they
propagate. -/
inductive GenError where
  | timeout
  | serviceError
deriving DecidableEq, Repr

/-- The `analysis_prompt` f-string of `agent.py` lines 118–129, with the
interpolated `{query}` and `{context}` made explicit. -/
def analysis_prompt (query context : String) : String :=
  "Based on the following data retrieved from our database, please analyze and identify key insights:\n\nQuery: "
    ++ query ++ "\n\n" ++ context
    ++ "\n\nPlease provide:\n1. Key metrics and numbers\n2. Notable trends\n3. Top performers\n4. Areas of concern\n5. Data-driven insights"

/-- The `report_prompt` f-string of `agent.py` lines 147–161, with the
interpolated `{query}` and `{analyst_findings}` made explicit. -/
def report_prompt (query findings : String) : String :=
  "Based on the data analyst's findings, create a comprehensive professional report.\n\nOriginal Query: "
    ++ query ++ "\n\nData Analyst's Findings:\n" ++ findings
    ++ "\n\nCreate a detailed report with these sections:\n1. Executive Summary\n2. Key Findings  \n3. Detailed Analysis\n4. Insights and Trends\n5. Recommendations\n\nMake it professional, clear, and actionable."

/-- The two-stage part of `generate_report_with_autogen_multiagent`
(`agent.py` lines 117–180), after the context has been retrieved: build the
analysis prompt, issue one generation call in the analyst role
(`initiate_chat(analyst, ..., max_turns=1)` followed by
`last_message(analyst)["content"]`), build the report prompt from the
findings, issue one generation call in the writer role, and return the
writer output.  The generation backend `gen` is a parameter and may fail
(`Except`); a failure propagates exactly as an uncaught Python exception
does.  The list component records the generation calls issued, in order. -/
def twoStageRunE (gen : Role → String → Except GenError String)
    (query context : String) :
    Except GenError String × List (Role × String) :=
  let p1 := analysis_prompt query context
  match gen Role.analyst p1 with
  | Except.error e => (Except.error e, [(Role.analyst, p1)])
  | Except.ok findings =>
    let p2 := report_prompt query findings
    match gen Role.writer p2 with
    | Except.error e => (Except.error e, [(Role.analyst, p1), (Role.writer, p2)])
    | Except.ok report => (Except.ok report, [(Role.analyst, p1), (Role.writer, p2)])

/-- `twoStageRunE` under a generation backend that always answers (the
non-failing run of `agent.py` lines 117–180). -/
def twoStageRun (gen : Role → String → String) (query context : String) :
    Except GenError String × List (Role × String) :=
  twoStageRunE (fun r p => Except.ok (gen r p)) query context

/-- `generate_report_with_autogen_multiagent(query, report_type, n_results)`
(`agent.py` lines 96–180) end to end: step-1 retrieval dispatch, then the
two-stage generation; a retrieval exception aborts before any generation
call. -/
def generate_report_with_autogen_multiagent
    (search : SearchCall → Option RawContainer)
    (gen : Role → String → Except GenError String)
    (query reportType : String) (nResults : Nat) :
    Except (PyError ⊕ GenError) String × List SearchCall × List (Role × String) :=
  let rc := retrieveContextFor search reportType query nResults
  match rc.1 with
  | Except.error e => (Except.error (Sum.inl e), rc.2, [])
  | Except.ok context =>
    let g := twoStageRunE gen query context
    (g.1.mapError Sum.inr, rc.2, g.2)

/-- Substring relation on strings: `needle` occurs contiguously in `hay`. -/
def SubstrOf (needle hay : String) : Prop :=
  ∃ x y, hay = x ++ needle ++ y

/-- The container returned for an empty result set: all three lists present
and empty. -/
def emptyRawContainer : RawContainer :=
  { documents := some [], metadatas := some [], distances := some [] }

/-- The metadata keys `create_context_string` probes for each record type,
paired with the literal segment of the line that immediately precedes the
rendered value (so `label ++ "None"` is the exact text the line shows when
the key is missing). -/
def fieldMarkers (t : String) : List (String × String) :=
  if t = "sales" then
    [("product", "   Product: "), ("revenue", ", Revenue: $"),
     ("region", ", Region: "), ("quarter", ", Quarter: ")]
  else if t = "marketing" then
    [("campaign_name", "   Campaign: "), ("channel", ", Channel: "),
     ("budget", ", Budget: $"), ("conversions", ", Conversions: ")]
  else []

/-- Zipping the three projected columns of a hit list recovers the hit list
itself (the index hands `format_retrieval_results` perfectly aligned
columns). -/
theorem zip_maps (hits : List RawHit) :
    (hits.map RawHit.doc).zip ((hits.map RawHit.metadata).zip (hits.map RawHit.distance))
      = hits.map (fun h => (h.doc, h.metadata, h.distance)) := by
  induction hits with
  | nil => rfl
  | cons h t ih => simp [ih]

/-- On the container built from a hit list, `format_retrieval_results`
returns exactly the normalized items (no exception, no sentinel). -/
theorem format_mkContainer (hits : List RawHit) :
    format_retrieval_results (some (mkContainer hits))
      = Except.ok (Formatted.items (normalizeHits hits)) := rfl

/-- Normalization preserves length. -/
theorem normalizeHits_length (hits : List RawHit) :
    (normalizeHits hits).length = hits.length := by
  unfold normalizeHits normalizeTriples
  rw [zip_maps]
  simp

/-- The i-th normalized item, with the index transported along
`normalizeHits_length`. -/
def nthItem (hits : List RawHit) (i : Nat) (hi : i < hits.length) : ContextItem :=
  (normalizeHits hits).get ⟨i, by rw [normalizeHits_length]; exact hi⟩

/-- Explicit description of the i-th normalized item: rank `i+1`, score
`1 - distance`, type from the metadata, content and metadata copied from the
i-th hit. -/
theorem nthItem_eq (hits : List RawHit) (i : Nat) (hi : i < hits.length) :
    nthItem hits i hi =
      { rank := i + 1
      , relevance_score := 1 - (hits.get ⟨i, hi⟩).distance
      , type := (List.lookup "type" (hits.get ⟨i, hi⟩).metadata).getD "unknown"
      , content := (hits.get ⟨i, hi⟩).doc
      , metadata := (hits.get ⟨i, hi⟩).metadata } := by
  unfold nthItem normalizeHits normalizeTriples
  simp [zip_maps, List.get_eq_getElem, List.getElem_map, List.getElem_enum]

/-- Substring occurrence is transitive. -/
theorem substr_trans {a b c : String} (h1 : SubstrOf a b) (h2 : SubstrOf b c) :
    SubstrOf a c := by
  obtain ⟨x, y, hb⟩ := h1
  obtain ⟨u, v, hc⟩ := h2
  exact ⟨u ++ x, y ++ v, by rw [hc, hb]; simp [String.append_assoc]⟩

/-- Every part of a joined list occurs in the join. -/
theorem joinNL_mem (p : String) : ∀ parts : List String, p ∈ parts → SubstrOf p (joinNL parts) := by
  intro parts
  induction parts with
  | nil => intro h; cases h
  | cons a rest ih =>
    intro h
    cases rest with
    | nil =>
      have hp : p = a := by simpa using h
      subst hp
      exact ⟨"", "", by simp [joinNL]⟩
    | cons b rest2 =>
      rcases List.mem_cons.mp h with hp | hp
      · subst hp
        exact ⟨"", "\n" ++ joinNL (b :: rest2), by simp [joinNL, String.append_assoc]⟩
      · obtain ⟨x, y, hxy⟩ := ih hp
        exact ⟨a ++ "\n" ++ x, y, by simp [joinNL, hxy, String.append_assoc]⟩

/-- Every part emitted for an item of the list occurs in the composed
context string. -/
theorem part_substr_compose (items : List ContextItem) (it : ContextItem) (p : String)
    (hmem : it ∈ items) (hp : p ∈ itemParts it) :
    SubstrOf p (create_context_string (Formatted.items items)) := by
  apply joinNL_mem
  exact List.mem_cons_of_mem _
    (List.mem_flatten.mpr ⟨itemParts it, List.mem_map_of_mem _ hmem, hp⟩)

/-- C1: for every query string and every composed-context string, the
two-stage pipeline issues exactly two generation calls — first in the
analyst role with the analysis prompt, then in the writer role with the
report prompt; the second prompt contains the first call's full output as a
substring; the writer's output is returned verbatim as the final report. -/
theorem two_stage_exactly_two_calls (gen : Role → String → String) (query context : String) :
    (twoStageRun gen query context).2 =
      [(Role.analyst, analysis_prompt query context),
       (Role.writer, report_prompt query (gen Role.analyst (analysis_prompt query context)))]
    ∧ SubstrOf (gen Role.analyst (analysis_prompt query context))
        (report_prompt query (gen Role.analyst (analysis_prompt query context)))
    ∧ (twoStageRun gen query context).1 =
        Except.ok (gen Role.writer
          (report_prompt query (gen Role.analyst (analysis_prompt query context)))) := by
  refine ⟨rfl, ?_, rfl⟩
  exact ⟨"Based on the data analyst's findings, create a comprehensive professional report.\n\nOriginal Query: "
      ++ query ++ "\n\nData Analyst's Findings:\n",
    "\n\nCreate a detailed report with these sections:\n1. Executive Summary\n2. Key Findings  \n3. Detailed Analysis\n4. Insights and Trends\n5. Recommendations\n\nMake it professional, clear, and actionable.",
    rfl⟩

/-- C2: if the analyst-stage generation call fails, the writer-stage call is
never issued (the call log stops after the analyst call) and the failure
propagates with the original error kind preserved. -/
theorem stage1_failure_stops_pipeline (gen : Role → String → Except GenError String)
    (query context : String) (e : GenError)
    (h : gen Role.analyst (analysis_prompt query context) = Except.error e) :
    twoStageRunE gen query context =
      (Except.error e, [(Role.analyst, analysis_prompt query context)]) := by
  simp only [twoStageRunE, h]

/-- Witness for C2: a backend whose analyst call times out makes the
pipeline return that timeout after a single generation call. -/
theorem stage1_failure_stops_pipeline_witness :
    twoStageRunE (fun _ _ => Except.error GenError.timeout) "monthly sales trends" "some context" =
      (Except.error GenError.timeout,
       [(Role.analyst, analysis_prompt "monthly sales trends" "some context")]) :=
  stage1_failure_stops_pipeline (fun _ _ => Except.error GenError.timeout)
    "monthly sales trends" "some context" GenError.timeout rfl

/-- C6: `create_context_string` passes any plain string — in particular the
empty sentinel — through unchanged, so formatting an empty raw result set
and composing it yields exactly the sentinel, with no header or list
wrapper added. -/
theorem compose_sentinel_unchanged :
    (∀ s : String, create_context_string (Formatted.str s) = s)
    ∧ create_context_string (Formatted.str sentinel) = sentinel
    ∧ (format_retrieval_results (some emptyRawContainer)).map create_context_string
        = Except.ok sentinel
    ∧ (format_retrieval_results none).map create_context_string = Except.ok sentinel :=
  ⟨fun _ => rfl, rfl, rfl, rfl⟩

/-- C8: the retrieval router issues exactly one similarity-search call;
category `sales` maps to the filter `{'type': 'sales'}` with the requested
result count 5, `marketing` to `{'type': 'marketing'}`, and `combined` to no
filter. -/
theorem router_filter_mapping (search : SearchCall → Option RawContainer) (query : String) :
    (retrieveContextFor search "sales" query 5).2 =
      [{ query := query, nResults := 5, whereFilter := some ("type", "sales") }]
    ∧ (retrieveContextFor search "marketing" query 5).2 =
      [{ query := query, nResults := 5, whereFilter := some ("type", "marketing") }]
    ∧ (retrieveContextFor search "combined" query 5).2 =
      [{ query := query, nResults := 5, whereFilter := none }] :=
  ⟨rfl, rfl, rfl⟩

/-- C10: any `report_type` other than exactly `"sales"` or `"marketing"` —
misspellings and arbitrary strings included — silently takes the combined
(unfiltered) retrieval branch; no validation error is raised. -/
theorem unknown_category_goes_combined (search : SearchCall → Option RawContainer)
    (query : String) (n : Nat) (rt : String)
    (h1 : rt ≠ "sales") (h2 : rt ≠ "marketing") :
    retrieveContextFor search rt query n = retrieve_combined_data search query n := by
  unfold retrieveContextFor
  rw [if_neg h1, if_neg h2]

/-- Witness for C10: the misspelled category `"Sales"` performs the
combined, unfiltered retrieval. -/
theorem unknown_category_goes_combined_witness :
    retrieveContextFor (fun _ => none) "Sales" "top products" 3 =
      retrieve_combined_data (fun _ => none) "top products" 3 :=
  unknown_category_goes_combined (fun _ => none) "top products" 3 "Sales"
    (by decide) (by decide)

/-- Counterexample to C3 as stated: a container whose `documents` list is
present and non-empty but which lacks the `metadatas` list makes
`format_retrieval_results` raise `KeyError("metadatas")` instead of
returning the sentinel. -/
theorem missing_metadatas_raises :
    format_retrieval_results
        (some { documents := some [["doc"]], metadatas := none, distances := none })
      = Except.error (PyError.keyError "metadatas")
    ∧ format_retrieval_results
        (some { documents := some [["doc"]], metadatas := none, distances := none })
      ≠ Except.ok (Formatted.str sentinel) := by
  refine ⟨rfl, ?_⟩
  intro hcontra
  exact Except.noConfusion hcontra

/-- C3 (amended): a falsy container, a container lacking its `documents`
list, and a container with an empty `documents` list all yield the sentinel
without failing; but a container with a non-empty `documents` list that
lacks the `metadatas` list raises `KeyError` rather than returning the
sentinel. -/
theorem empty_results_sentinel :
    format_retrieval_results none = Except.ok (Formatted.str sentinel)
    ∧ (∀ r : RawContainer, r.documents = none →
        format_retrieval_results (some r) = Except.ok (Formatted.str sentinel))
    ∧ (∀ r : RawContainer, r.documents = some [] →
        format_retrieval_results (some r) = Except.ok (Formatted.str sentinel))
    ∧ (∀ (r : RawContainer) (docs : List String) (rest : List (List String)),
        r.documents = some (docs :: rest) → r.metadatas = none →
        format_retrieval_results (some r) = Except.error (PyError.keyError "metadatas")) := by
  refine ⟨rfl, ?_, ?_, ?_⟩
  · rintro ⟨d, m, dis⟩ h
    cases h
    rfl
  · rintro ⟨d, m, dis⟩ h
    cases h
    rfl
  · rintro ⟨d, m, dis⟩ docs rest h hm
    cases h
    cases hm
    rfl

/-- Witness for the amended C3: a concrete empty-documents container yields
the sentinel; a concrete container without `metadatas` raises `KeyError`. -/
theorem empty_results_sentinel_witness :
    format_retrieval_results
        (some { documents := some [], metadatas := some [], distances := some [] })
      = Except.ok (Formatted.str sentinel)
    ∧ format_retrieval_results
        (some { documents := some [["d"]], metadatas := none, distances := some [] })
      = Except.error (PyError.keyError "metadatas") :=
  ⟨empty_results_sentinel.2.2.1
      { documents := some [], metadatas := some [], distances := some [] } rfl,
   empty_results_sentinel.2.2.2
      { documents := some [["d"]], metadatas := none, distances := some [] }
      ["d"] [] rfl rfl⟩

/-- C4: every non-empty raw hit list normalizes — without exception or
sentinel — to a context-item list of equal length, one item per hit, with
rank `i + 1` strictly increasing from 1 and content/metadata in input order
(no re-sorting by score). -/
theorem normalize_preserves_order (hits : List RawHit) (_hne : hits ≠ []) :
    format_retrieval_results (some (mkContainer hits))
      = Except.ok (Formatted.items (normalizeHits hits))
    ∧ (normalizeHits hits).length = hits.length
    ∧ ∀ (i : Nat) (hi : i < hits.length),
        (nthItem hits i hi).rank = i + 1
        ∧ (nthItem hits i hi).content = (hits.get ⟨i, hi⟩).doc
        ∧ (nthItem hits i hi).metadata = (hits.get ⟨i, hi⟩).metadata := by
  refine ⟨format_mkContainer hits, normalizeHits_length hits, ?_⟩
  intro i hi
  rw [nthItem_eq hits i hi]
  exact ⟨rfl, rfl, rfl⟩

/-- Witness for C4: a concrete two-hit list normalizes to two items whose
ranks are 1 and 2 and whose contents follow input order. -/
theorem normalize_preserves_order_witness :
    (normalizeHits
        [{ doc := "a", metadata := [("type", "sales")], distance := 1/4 },
         { doc := "b", metadata := [("type", "marketing")], distance := 1/2 }]).length = 2
    ∧ (nthItem
        [{ doc := "a", metadata := [("type", "sales")], distance := 1/4 },
         { doc := "b", metadata := [("type", "marketing")], distance := 1/2 }]
        1 (by decide)).rank = 1 + 1 :=
  ⟨(normalize_preserves_order _ (by simp)).2.1,
   ((normalize_preserves_order
      [{ doc := "a", metadata := [("type", "sales")], distance := 1/4 },
       { doc := "b", metadata := [("type", "marketing")], distance := 1/2 }]
      (by simp)).2.2 1 (by decide)).1⟩

/-- C5: every normalized item's relevance score is exactly `1 - distance`,
with no clamping: a distance above 1 yields a negative score that is kept
as-is. -/
theorem score_is_one_minus_distance (hits : List RawHit) (i : Nat) (hi : i < hits.length) :
    (nthItem hits i hi).relevance_score = 1 - (hits.get ⟨i, hi⟩).distance
    ∧ ((hits.get ⟨i, hi⟩).distance > 1 → (nthItem hits i hi).relevance_score < 0) := by
  have h : (nthItem hits i hi).relevance_score = 1 - (hits.get ⟨i, hi⟩).distance := by
    rw [nthItem_eq hits i hi]
  refine ⟨h, fun hgt => ?_⟩
  rw [h]
  linarith

/-- If a probed sales metadata key is missing, the sales line carries its
label segment immediately followed by the rendered `None`. -/
theorem marker_salesLine (md : Metadata) (key label : String)
    (hk : (key, label) ∈ fieldMarkers "sales") (hnone : List.lookup key md = none) :
    SubstrOf (label ++ "None") (salesLine md) := by
  simp [fieldMarkers, Prod.ext_iff] at hk
  rcases hk with ⟨h1, h2⟩ | ⟨h1, h2⟩ | ⟨h1, h2⟩ | ⟨h1, h2⟩ <;> subst h1 <;> subst h2
  · have hv : pyNone (List.lookup "product" md) = "None" := by rw [hnone]; rfl
    refine ⟨"",
      ", Revenue: $" ++ pyNone (List.lookup "revenue" md)
        ++ ", Region: " ++ pyNone (List.lookup "region" md)
        ++ ", Quarter: " ++ pyNone (List.lookup "quarter" md), ?_⟩
    simp only [salesLine]
    rw [hv]
    simp only [String.append_assoc, String.empty_append, String.append_empty]
  · have hv : pyNone (List.lookup "revenue" md) = "None" := by rw [hnone]; rfl
    refine ⟨"   Product: " ++ pyNone (List.lookup "product" md),
      ", Region: " ++ pyNone (List.lookup "region" md)
        ++ ", Quarter: " ++ pyNone (List.lookup "quarter" md), ?_⟩
    simp only [salesLine]
    rw [hv]
    simp only [String.append_assoc, String.empty_append, String.append_empty]
  · have hv : pyNone (List.lookup "region" md) = "None" := by rw [hnone]; rfl
    refine ⟨"   Product: " ++ pyNone (List.lookup "product" md)
        ++ ", Revenue: $" ++ pyNone (List.lookup "revenue" md),
      ", Quarter: " ++ pyNone (List.lookup "quarter" md), ?_⟩
    simp only [salesLine]
    rw [hv]
    simp only [String.append_assoc, String.empty_append, String.append_empty]
  · have hv : pyNone (List.lookup "quarter" md) = "None" := by rw [hnone]; rfl
    refine ⟨"   Product: " ++ pyNone (List.lookup "product" md)
        ++ ", Revenue: $" ++ pyNone (List.lookup "revenue" md)
        ++ ", Region: " ++ pyNone (List.lookup "region" md), "", ?_⟩
    simp only [salesLine]
    rw [hv]
    simp only [String.append_assoc, String.empty_append, String.append_empty]

/-- If a probed marketing metadata key is missing, the marketing line carries
its label segment immediately followed by the rendered `None`. -/
theorem marker_marketingLine (md : Metadata) (key label : String)
    (hk : (key, label) ∈ fieldMarkers "marketing") (hnone : List.lookup key md = none) :
    SubstrOf (label ++ "None") (marketingLine md) := by
  simp [fieldMarkers, Prod.ext_iff] at hk
  rcases hk with ⟨h1, h2⟩ | ⟨h1, h2⟩ | ⟨h1, h2⟩ | ⟨h1, h2⟩ <;> subst h1 <;> subst h2
  · have hv : pyNone (List.lookup "campaign_name" md) = "None" := by rw [hnone]; rfl
    refine ⟨"",
      ", Channel: " ++ pyNone (List.lookup "channel" md)
        ++ ", Budget: $" ++ pyNone (List.lookup "budget" md)
        ++ ", Conversions: " ++ pyNone (List.lookup "conversions" md), ?_⟩
    simp only [marketingLine]
    rw [hv]
    simp only [String.append_assoc, String.empty_append, String.append_empty]
  · have hv : pyNone (List.lookup "channel" md) = "None" := by rw [hnone]; rfl
    refine ⟨"   Campaign: " ++ pyNone (List.lookup "campaign_name" md),
      ", Budget: $" ++ pyNone (List.lookup "budget" md)
        ++ ", Conversions: " ++ pyNone (List.lookup "conversions" md), ?_⟩
    simp only [marketingLine]
    rw [hv]
    simp only [String.append_assoc, String.empty_append, String.append_empty]
  · have hv : pyNone (List.lookup "budget" md) = "None" := by rw [hnone]; rfl
    refine ⟨"   Campaign: " ++ pyNone (List.lookup "campaign_name" md)
        ++ ", Channel: " ++ pyNone (List.lookup "channel" md),
      ", Conversions: " ++ pyNone (List.lookup "conversions" md), ?_⟩
    simp only [marketingLine]
    rw [hv]
    simp only [String.append_assoc, String.empty_append, String.append_empty]
  · have hv : pyNone (List.lookup "conversions" md) = "None" := by rw [hnone]; rfl
    refine ⟨"   Campaign: " ++ pyNone (List.lookup "campaign_name" md)
        ++ ", Channel: " ++ pyNone (List.lookup "channel" md)
        ++ ", Budget: $" ++ pyNone (List.lookup "budget" md), "", ?_⟩
    simp only [marketingLine]
    rw [hv]
    simp only [String.append_assoc, String.empty_append, String.append_empty]

/-- C7: composing never fails on a missing metadata field — for any item
whose type expects a field (sales: product/revenue/region/quarter;
marketing: campaign/channel/budget/conversions) that its metadata lacks, the
composed output carries that field's label followed by the explicit `None`
marker, and every item's content line is still composed into the output. -/
theorem compose_missing_field_none_marker (items : List ContextItem) (it : ContextItem)
    (key label : String) (hmem : it ∈ items) (hk : (key, label) ∈ fieldMarkers it.type)
    (hnone : List.lookup key it.metadata = none) :
    SubstrOf (label ++ "None") (create_context_string (Formatted.items items))
    ∧ ∀ j ∈ items, SubstrOf ("   " ++ j.content) (create_context_string (Formatted.items items)) := by
  constructor
  · by_cases hs : it.type = "sales"
    · have hline : salesLine it.metadata ∈ itemParts it := by
        simp [itemParts, hs]
      exact substr_trans (marker_salesLine it.metadata key label (hs ▸ hk) hnone)
        (part_substr_compose items it _ hmem hline)
    · by_cases hm : it.type = "marketing"
      · have hline : marketingLine it.metadata ∈ itemParts it := by
          simp [itemParts, hs, hm]
        exact substr_trans (marker_marketingLine it.metadata key label (hm ▸ hk) hnone)
          (part_substr_compose items it _ hmem hline)
      · exfalso
        rw [fieldMarkers, if_neg hs, if_neg hm] at hk
        cases hk
  · intro j hj
    have hline : itemContent j ∈ itemParts j := by
      unfold itemParts
      split
      · simp
      · split <;> simp
    exact part_substr_compose items j (itemContent j) hj hline

/-- A concrete sales context item whose metadata lacks every expected sales
field except `type`. -/
def itemNoProduct : ContextItem :=
  { rank := 1, relevance_score := 1/2, type := "sales",
    content := "Q3 sales grew", metadata := [("type", "sales")] }

/-- Witness for C7: a sales item lacking its `product` field composes to a
string containing the `   Product: None` marker, with the content line
intact. -/
theorem compose_missing_field_none_marker_witness :
    SubstrOf ("   Product: " ++ "None")
      (create_context_string (Formatted.items [itemNoProduct]))
    ∧ ∀ j ∈ [itemNoProduct],
        SubstrOf ("   " ++ j.content)
          (create_context_string (Formatted.items [itemNoProduct])) :=
  compose_missing_field_none_marker [itemNoProduct] itemNoProduct
    "product" "   Product: " (List.mem_singleton.mpr rfl) (by decide) (by decide)

/-- Witness for C5: a concrete hit at distance 3/2 keeps the negative score
`1 - 3/2`. -/
theorem score_is_one_minus_distance_witness :
    (nthItem [{ doc := "d", metadata := [], distance := 3/2 }] 0 (by decide)).relevance_score
      = 1 - (3/2 : ℚ)
    ∧ (nthItem [{ doc := "d", metadata := [], distance := 3/2 }] 0 (by decide)).relevance_score
      < 0 := by
  have h := score_is_one_minus_distance
    [{ doc := "d", metadata := [], distance := 3/2 }] 0 (by decide)
  exact ⟨h.1, h.2 (by norm_num)⟩

/-- The metadata of the round-trip scenario hit (numbers stored as strings,
as `load_data_to_vectordb` does). -/
def c9md : Metadata :=
  [("type", "sales"), ("product", "Widget A"), ("revenue", "500000"),
   ("region", "NA"), ("quarter", "Q3")]

/-- The round-trip scenario raw hit: document `"Q3 revenue up 12%"`,
distance 0.09. -/
def c9hit : RawHit :=
  { doc := "Q3 revenue up 12%", metadata := c9md, distance := 9/100 }

/-- C9: the single-hit round trip — normalize yields one item with rank 1,
score 0.91, type `"sales"`; composing it yields a string containing the line
`1. [SALES] (Relevance: 0.91)`, the content line, and
`Product: Widget A, Revenue: $500000, Region: NA, Quarter: Q3`. -/
theorem roundtrip_single_sales_hit :
    format_retrieval_results (some (mkContainer [c9hit]))
      = Except.ok (Formatted.items
          [{ rank := 1, relevance_score := 91/100, type := "sales",
             content := "Q3 revenue up 12%", metadata := c9md }])
    ∧ SubstrOf "1. [SALES] (Relevance: 0.91)"
        (create_context_string (Formatted.items (normalizeHits [c9hit])))
    ∧ SubstrOf "   Q3 revenue up 12%"
        (create_context_string (Formatted.items (normalizeHits [c9hit])))
    ∧ SubstrOf "Product: Widget A, Revenue: $500000, Region: NA, Quarter: Q3"
        (create_context_string (Formatted.items (normalizeHits [c9hit]))) := by
  refine ⟨by with_unfolding_all rfl, ?_, ?_, ?_⟩
  · exact ⟨"Retrieved relevant information:\n\n\n",
      "\n   Q3 revenue up 12%\n   Product: Widget A, Revenue: $500000, Region: NA, Quarter: Q3",
      by with_unfolding_all rfl⟩
  · exact ⟨"Retrieved relevant information:\n\n\n1. [SALES] (Relevance: 0.91)\n",
      "\n   Product: Widget A, Revenue: $500000, Region: NA, Quarter: Q3",
      by with_unfolding_all rfl⟩
  · exact ⟨"Retrieved relevant information:\n\n\n1. [SALES] (Relevance: 0.91)\n   Q3 revenue up 12%\n   ",
      "",
      by with_unfolding_all rfl⟩
